import Mathlib

/-!
Verification of the EventSub client core described in the repository's
`twitchAPI/eventsub/__init__.py` module documentation and its design-level
specification.  The module file itself is documentation-only: it catalogs
the available transports, the supported topics, their `listen_*`
registration functions and their callback payload types.  The executable
core (topic registry, subscription manager, notification dispatcher) is
described at design level by the specification; here it is embedded as
executable Lean definitions and its stated properties are proved.
-/

namespace EventSub

/-! ## Data model -/

/-- Modelled from the spec: a Topic is {name, version, required_condition_fields,
payload_kind}, immutable, one instance per supported event type.  The
`twitchAPI` code defining the Topic data is not part of the given source file. -/
structure Topic where
  name : String
  version : String
  requiredConditionFields : List String
  payloadKind : String
deriving DecidableEq, Repr

/-- Modelled from the spec: status of a Subscription, one of
{pending, enabled, revoked, failed}. -/
inductive SubStatus where
  | pending
  | enabled
  | revoked
  | failed
deriving DecidableEq, Repr, Fintype

/-- Modelled from the spec: a Subscription is {id (opaque token from provider),
topic, condition (mapping of field to value), status, callback}.  The callback
is abstracted as a numeric identifier; invoking it is recorded in an
invocation log. -/
structure Subscription where
  id : String
  topic : Topic
  condition : List (String × String)
  status : SubStatus
  callback : Nat
deriving DecidableEq, Repr

/-- Modelled from the spec: a Notification is {subscription_id, message id,
payload bytes}; payload bytes are abstracted as a string. -/
structure Notification where
  subscriptionId : String
  messageId : String
  payload : String
deriving DecidableEq, Repr

/-- Modelled from the spec: the provider-facing calls the core issues
(subscribe requests and revokes); recorded so that theorems can speak about
which provider requests were issued. -/
inductive ProviderRequest where
  | subscribeReq (topicName topicVersion : String) (condition : List (String × String))
  | revokeReq (id : String)
deriving DecidableEq, Repr

/-- Modelled from the spec: the caller-facing error taxonomy surfaced
synchronously at subscribe time: UnknownTopic and InvalidCondition. -/
inductive SubError where
  | UnknownTopic
  | InvalidCondition
deriving DecidableEq, Repr

/-- Modelled from the spec: the mutable state of the core: the subscription
store keyed by subscription id, the dedup window (recently seen message ids,
count-evicted at bound `dedupBound`), the log of callback invocations
(callback identifier paired with the delivered notification), the
provider-facing requests issued so far, diagnostics reported (never raised)
to the transport, and a counter of silently dropped duplicates. -/
structure EventSubState where
  subs : List Subscription
  dedupWindow : List String
  dedupBound : Nat
  invocations : List (Nat × Notification)
  providerRequests : List ProviderRequest
  diagnostics : List String
  duplicateCount : Nat
deriving DecidableEq, Repr

/-- Modelled from the spec: the initial state of a transport session's core:
empty store, empty dedup window with the implementer-chosen bound, nothing
invoked, issued or reported yet. -/
def initialState (bound : Nat) : EventSubState :=
  { subs := []
    dedupWindow := []
    dedupBound := bound
    invocations := []
    providerRequests := []
    diagnostics := []
    duplicateCount := 0 }

/-! ## Operations -/

/-- Modelled from the spec: a condition mapping supplies a field when some
entry's key equals it. -/
def conditionHasField (cond : List (String × String)) (f : String) : Bool :=
  cond.any (fun p => p.1 == f)

/-- Modelled from the spec: a condition is valid for a Topic when it supplies
every required condition field. -/
def validCondition (t : Topic) (cond : List (String × String)) : Bool :=
  t.requiredConditionFields.all (conditionHasField cond)

/-- Modelled from the spec: a Subscription is active while its status is
pending or enabled; revoked and failed are terminal. -/
def isActive (s : Subscription) : Bool :=
  s.status == .pending || s.status == .enabled

/-- Modelled from the spec: Topic Registry lookup by topic name and version;
read-only after initialization. -/
def findTopic (registry : List Topic) (nm ver : String) : Option Topic :=
  registry.find? (fun t => t.name == nm && t.version == ver)

/-- Modelled from the spec: subscribe(topic, condition, callback).  It looks
the topic up in the registry (UnknownTopic when absent), validates the
condition fields against the Topic's required set (InvalidCondition on
mismatch, before any provider contact), maintains the stated invariant of at
most one active Subscription per (topic, condition) by returning the already
stored Subscription when one is active for the same pair, and otherwise
issues the provider-facing subscribe call and stores a new Subscription in
pending state keyed by the id the provider returned (`newId`). -/
def subscribe (registry : List Topic) (nm ver : String)
    (cond : List (String × String)) (cb : Nat) (newId : String)
    (st : EventSubState) : EventSubState × Except SubError Subscription :=
  match findTopic registry nm ver with
  | none => (st, .error .UnknownTopic)
  | some t =>
    if validCondition t cond then
      match st.subs.find? (fun s => isActive s && s.topic == t && s.condition == cond) with
      | some s => (st, .ok s)
      | none =>
        let sub : Subscription :=
          { id := newId, topic := t, condition := cond, status := .pending, callback := cb }
        ({ st with
            subs := st.subs.filter (fun s => s.id != newId) ++ [sub]
            providerRequests := st.providerRequests ++ [.subscribeReq nm ver cond] },
         .ok sub)
    else (st, .error .InvalidCondition)

/-- Modelled from the spec: unsubscribe(subscription_id) issues the provider
revoke and removes the Subscription on success; unsubscribing an
already-removed id is a no-op, not an error. -/
def unsubscribe (id : String) (st : EventSubState) : EventSubState :=
  if st.subs.any (fun s => s.id == id) then
    { st with
        subs := st.subs.filter (fun s => s.id != id)
        providerRequests := st.providerRequests ++ [.revokeReq id] }
  else st

/-- Modelled from the spec: dispatch(raw_notification).  If the message id is
in the dedup window the notification is dropped silently (only a duplicate
counter moves); otherwise the message id is recorded in the bounded window,
the Subscription is looked up by id — when absent the notification is dropped
with a diagnostic report and no error is raised to the transport (the
function is total) — and otherwise the stored callback is invoked with the
payload, which the model records in the invocation log. -/
def dispatch (n : Notification) (st : EventSubState) : EventSubState :=
  if n.messageId ∈ st.dedupWindow then
    { st with duplicateCount := st.duplicateCount + 1 }
  else
    let st1 := { st with dedupWindow := (n.messageId :: st.dedupWindow).take st.dedupBound }
    match st.subs.find? (fun s => s.id == n.subscriptionId) with
    | none => { st1 with diagnostics := st1.diagnostics ++ [n.subscriptionId] }
    | some s => { st1 with invocations := st1.invocations ++ [(s.callback, n)] }

/-- Modelled from the spec: on_session_reconnect — the provider may invalidate
all subscriptions tied to a session; the Manager marks all affected
Subscriptions as revoked and surfaces this to the caller (modelled as
diagnostic reports). -/
def onSessionReconnect (st : EventSubState) : EventSubState :=
  { st with
      subs := st.subs.map (fun s => { s with status := .revoked })
      diagnostics := st.diagnostics ++ st.subs.map (fun s => s.id) }

/-- Modelled from the spec: the per-Subscription status state machine, driven
by provider acknowledgements: pending becomes enabled on a successful
verification/ack round-trip, pending becomes failed on verification timeout
or provider rejection, enabled becomes revoked; revoked and failed are
terminal.  `none` means no transition is defined. -/
inductive StatusEvent where
  | verificationSuccess
  | verificationTimeout
  | providerRejection
  | revoke
deriving DecidableEq, Repr, Fintype

/-- Modelled from the spec: the transition function of the Subscription status
state machine. -/
def statusStep : SubStatus → StatusEvent → Option SubStatus
  | .pending, .verificationSuccess => some .enabled
  | .pending, .verificationTimeout => some .failed
  | .pending, .providerRejection => some .failed
  | .enabled, .revoke => some .revoked
  | _, _ => none

/-! ## The documented catalog

The module docstring of `twitchAPI/eventsub/__init__.py` is a table of the
available EventSub topics; each row names the topic (with an explicit version
for Channel Update v1/v2 and Channel Follow v2), the registration function on
`twitchAPI.eventsub.base.EventSubBase`, and the callback payload type from
`twitchAPI.object.eventsub`.  It also tables the two available transports.
These are transcribed here verbatim. -/

/-- One row of the "Available Topics and Callback Payloads" table: topic name,
the version displayed next to it (when any), the short name of the
registration function, the class it is defined on, and the callback payload
type. -/
structure TopicEntry where
  topicName : String
  docVersion : Option String
  listenFunction : String
  definedOn : String
  payload : String
deriving DecidableEq, Repr

/-- Builds a catalog row; every row of the source table names its function on
the same class `twitchAPI.eventsub.base.EventSubBase`. -/
def entry (nm : String) (v : Option String) (fn pl : String) : TopicEntry :=
  { topicName := nm, docVersion := v, listenFunction := fn
    definedOn := "twitchAPI.eventsub.base.EventSubBase", payload := pl }

/-- The "Available Topics and Callback Payloads" table of the module
docstring, row by row. -/
def eventsubCatalog : List TopicEntry :=
  [ entry "Channel Update" (some "1") "listen_channel_update" "ChannelUpdateEvent",
    entry "Channel Update" (some "2") "listen_channel_update_v2" "ChannelUpdateEvent",
    entry "Channel Follow" (some "2") "listen_channel_follow_v2" "ChannelFollowEvent",
    entry "Channel Subscribe" none "listen_channel_subscribe" "ChannelSubscribeEvent",
    entry "Channel Subscription End" none "listen_channel_subscription_end" "ChannelSubscriptionEndEvent",
    entry "Channel Subscription Gift" none "listen_channel_subscription_gift" "ChannelSubscriptionGiftEvent",
    entry "Channel Subscription Message" none "listen_channel_subscription_message" "ChannelSubscriptionMessageEvent",
    entry "Channel Cheer" none "listen_channel_cheer" "ChannelCheerEvent",
    entry "Channel Raid" none "listen_channel_raid" "ChannelRaidEvent",
    entry "Channel Ban" none "listen_channel_ban" "ChannelBanEvent",
    entry "Channel Unban" none "listen_channel_unban" "ChannelUnbanEvent",
    entry "Channel Moderator Add" none "listen_channel_moderator_add" "ChannelModeratorAddEvent",
    entry "Channel Moderator Remove" none "listen_channel_moderator_remove" "ChannelModeratorRemoveEvent",
    entry "Channel Points Custom Reward Add" none "listen_channel_points_custom_reward_add" "ChannelPointsCustomRewardAddEvent",
    entry "Channel Points Custom Reward Update" none "listen_channel_points_custom_reward_update" "ChannelPointsCustomRewardUpdateEvent",
    entry "Channel Points Custom Reward Remove" none "listen_channel_points_custom_reward_remove" "ChannelPointsCustomRewardRemoveEvent",
    entry "Channel Points Custom Reward Redemption Add" none "listen_channel_points_custom_reward_redemption_add" "ChannelPointsCustomRewardRedemptionAddEvent",
    entry "Channel Points Custom Reward Redemption Update" none "listen_channel_points_custom_reward_redemption_update" "ChannelPointsCustomRewardRedemptionUpdateEvent",
    entry "Channel Poll Begin" none "listen_channel_poll_begin" "ChannelPollBeginEvent",
    entry "Channel Poll Progress" none "listen_channel_poll_progress" "ChannelPollProgressEvent",
    entry "Channel Poll End" none "listen_channel_poll_end" "ChannelPollEndEvent",
    entry "Channel Prediction Begin" none "listen_channel_prediction_begin" "ChannelPredictionEvent",
    entry "Channel Prediction Progress" none "listen_channel_prediction_progress" "ChannelPredictionEvent",
    entry "Channel Prediction Lock" none "listen_channel_prediction_lock" "ChannelPredictionEvent",
    entry "Channel Prediction End" none "listen_channel_prediction_end" "ChannelPredictionEndEvent",
    entry "Drop Entitlement Grant" none "listen_drop_entitlement_grant" "DropEntitlementGrantEvent",
    entry "Extension Bits Transaction Create" none "listen_extension_bits_transaction_create" "ExtensionBitsTransactionCreateEvent",
    entry "Goal Begin" none "listen_goal_begin" "GoalEvent",
    entry "Goal Progress" none "listen_goal_progress" "GoalEvent",
    entry "Goal End" none "listen_goal_end" "GoalEvent",
    entry "Hype Train Begin" none "listen_hype_train_begin" "HypeTrainEvent",
    entry "Hype Train Progress" none "listen_hype_train_progress" "HypeTrainEvent",
    entry "Hype Train End" none "listen_hype_train_end" "HypeTrainEvent",
    entry "Stream Online" none "listen_stream_online" "StreamOnlineEvent",
    entry "Stream Offline" none "listen_stream_offline" "StreamOfflineEvent",
    entry "User Authorization Grant" none "listen_user_authorization_grant" "UserAuthorizationGrantEvent",
    entry "User Authorization Revoke" none "listen_user_authorization_revoke" "UserAuthorizationRevokeEvent",
    entry "User Update" none "listen_user_update" "UserUpdateEvent",
    entry "Channel Shield Mode Begin" none "listen_channel_shield_mode_begin" "ShieldModeEvent",
    entry "Channel Shield Mode End" none "listen_channel_shield_mode_end" "ShieldModeEvent",
    entry "Channel Charity Campaign Start" none "listen_channel_charity_campaign_start" "CharityCampaignStartEvent",
    entry "Channel Charity Campaign Progress" none "listen_channel_charity_campaign_progress" "CharityCampaignProgressEvent",
    entry "Channel Charity Campaign Stop" none "listen_channel_charity_campaign_stop" "CharityCampaignStopEvent",
    entry "Channel Charity Campaign Donate" none "listen_channel_charity_campaign_donate" "CharityDonationEvent",
    entry "Channel Shoutout Create" none "listen_channel_shoutout_create" "ChannelShoutoutCreateEvent",
    entry "Channel Shoutout Receive" none "listen_channel_shoutout_receive" "ChannelShoutoutReceiveEvent" ]

/-- A row of the "Available Transports" table: transport module, use case and
auth type. -/
structure TransportEntry where
  methodDoc : String
  useCase : String
  authType : String
deriving DecidableEq, Repr

/-- The "Available Transports" table of the module docstring. -/
def availableTransports : List TransportEntry :=
  [ { methodDoc := "twitchAPI.eventsub.webhook"
      useCase := "Server / Multi User"
      authType := "App Authentication" },
    { methodDoc := "twitchAPI.eventsub.websocket"
      useCase := "Client / Single User"
      authType := "User Authentication" } ]

/-- Lowercases a character and turns a space into an underscore, the
character-level step of the `listen_<topic>` naming convention. -/
def slugChar (c : Char) : Char :=
  if c = ' ' then '_' else c.toLower

/-- Turns a displayed topic name into its snake_case slug
(for example "Channel Update" becomes "channel_update"). -/
def topicSlug (s : String) : String :=
  ⟨s.data.map slugChar⟩

/-- The function names admitted by the convention
`listen_<topic>[_v<version>]`: the bare slugged name, plus the
version-suffixed form when the table displays a version. -/
def conventionNames (topicName : String) (version : Option String) : List String :=
  match version with
  | none => ["listen_" ++ topicSlug topicName]
  | some v => ["listen_" ++ topicSlug topicName,
               "listen_" ++ topicSlug topicName ++ "_v" ++ v]

/-- A catalog row follows the naming convention when its registration
function is one of the names the convention admits for its topic. -/
def followsConvention (e : TopicEntry) : Bool :=
  (conventionNames e.topicName e.docVersion).contains e.listenFunction

/-- The static topic-to-payload map of the catalog: the payload type
documented for a given topic name and displayed version. -/
def payloadOfTopic (nm : String) (v : Option String) : Option String :=
  (eventsubCatalog.find? (fun e => e.topicName == nm && e.docVersion == v)).map
    (fun e => e.payload)

/-! ## Concrete demonstration data -/

/-- A concrete Topic used to instantiate theorems, matching the
specification's worked example for Stream Online. -/
def demoTopic : Topic :=
  { name := "Stream Online", version := "1"
    requiredConditionFields := ["broadcaster_user_id"]
    payloadKind := "StreamOnlineEvent" }

/-- A concrete Subscription used to instantiate theorems. -/
def demoSub : Subscription :=
  { id := "abc", topic := demoTopic
    condition := [("broadcaster_user_id", "123")]
    status := .enabled, callback := 7 }

/-- A concrete state holding exactly the demo Subscription. -/
def demoState : EventSubState :=
  { initialState 10 with subs := [demoSub] }

/-- A concrete Notification addressed at the demo Subscription. -/
def demoNotification : Notification :=
  { subscriptionId := "abc", messageId := "m1", payload := "p" }

/-! ## Helper lemmas about dispatch -/

theorem mem_take_cons {α : Type} (a : α) (l : List α) (n : Nat) (h : 1 ≤ n) :
    a ∈ (a :: l).take n := by
  obtain ⟨k, rfl⟩ : ∃ k, n = k + 1 := ⟨n - 1, by omega⟩
  rw [List.take_succ_cons]
  exact List.mem_cons_self a _

/-- A notification whose message id is already in the dedup window is dropped
silently: only the duplicate counter moves. -/
theorem dispatch_mem_window (n : Notification) (st : EventSubState)
    (h : n.messageId ∈ st.dedupWindow) :
    dispatch n st = { st with duplicateCount := st.duplicateCount + 1 } := by
  unfold dispatch
  rw [if_pos h]

/-- A fresh notification whose subscription id resolves invokes the stored
callback and records the message id in the bounded window. -/
theorem dispatch_fresh_found (n : Notification) (st : EventSubState)
    (s : Subscription) (h : n.messageId ∉ st.dedupWindow)
    (hs : st.subs.find? (fun s => s.id == n.subscriptionId) = some s) :
    dispatch n st =
      { st with
          dedupWindow := (n.messageId :: st.dedupWindow).take st.dedupBound
          invocations := st.invocations ++ [(s.callback, n)] } := by
  unfold dispatch
  rw [if_neg h, hs]

/-- A fresh notification whose subscription id does not resolve is dropped
with a diagnostic report. -/
theorem dispatch_fresh_not_found (n : Notification) (st : EventSubState)
    (h : n.messageId ∉ st.dedupWindow)
    (hs : st.subs.find? (fun s => s.id == n.subscriptionId) = none) :
    dispatch n st =
      { st with
          dedupWindow := (n.messageId :: st.dedupWindow).take st.dedupBound
          diagnostics := st.diagnostics ++ [n.subscriptionId] } := by
  unfold dispatch
  rw [if_neg h, hs]

/-- After any dispatch of a notification, its message id sits in the dedup
window, provided the window can hold at least one id. -/
theorem mem_window_dispatch (n : Notification) (st : EventSubState)
    (hb : 1 ≤ st.dedupBound) :
    n.messageId ∈ (dispatch n st).dedupWindow := by
  by_cases h : n.messageId ∈ st.dedupWindow
  · rw [dispatch_mem_window n st h]
    exact h
  · cases hs : st.subs.find? (fun s => s.id == n.subscriptionId) with
    | none =>
      rw [dispatch_fresh_not_found n st h hs]
      exact mem_take_cons _ _ _ hb
    | some s =>
      rw [dispatch_fresh_found n st s h hs]
      exact mem_take_cons _ _ _ hb

/-! ## C1 -/

/-- C1: dispatch is idempotent in the message id: delivering the same raw
notification twice leaves the invocation log of the first delivery unchanged
(the second delivery finds the message id in the dedup window and drops it
silently), and when the first delivery was fresh and resolved to a stored
Subscription the pair of dispatches invokes that Subscription's callback
exactly once. -/
theorem dispatch_idempotent_in_message_id (st : EventSubState) (n : Notification)
    (hb : 1 ≤ st.dedupBound) :
    (dispatch n (dispatch n st)).invocations = (dispatch n st).invocations ∧
    (n.messageId ∉ st.dedupWindow →
      ∀ s, st.subs.find? (fun s => s.id == n.subscriptionId) = some s →
        (dispatch n (dispatch n st)).invocations =
          st.invocations ++ [(s.callback, n)]) := by
  constructor
  · rw [dispatch_mem_window n (dispatch n st) (mem_window_dispatch n st hb)]
  · intro hfresh s hs
    rw [dispatch_mem_window n (dispatch n st) (mem_window_dispatch n st hb),
        dispatch_fresh_found n st s hfresh hs]

/-- Witness for C1 at the concrete demo state: the double delivery of the
demo notification invokes the demo callback exactly once. -/
theorem dispatch_idempotent_in_message_id_witness :
    (dispatch demoNotification (dispatch demoNotification demoState)).invocations =
      demoState.invocations ++ [(demoSub.callback, demoNotification)] :=
  (dispatch_idempotent_in_message_id demoState demoNotification (by decide)).2
    (by decide) demoSub (by decide)

/-! ## C3 -/

/-- C3: subscribing to a registered topic with a condition that lacks one of
its required condition fields fails with InvalidCondition and leaves the
state — including the list of issued provider requests and the subscription
store — completely unchanged. -/
theorem subscribe_missing_field_invalid_condition
    (registry : List Topic) (nm ver : String) (cond : List (String × String))
    (cb : Nat) (newId : String) (st : EventSubState) (t : Topic)
    (ht : findTopic registry nm ver = some t)
    (hmiss : ∃ f ∈ t.requiredConditionFields, conditionHasField cond f = false) :
    subscribe registry nm ver cond cb newId st = (st, .error .InvalidCondition) := by
  obtain ⟨f, hf, hnf⟩ := hmiss
  have hv : validCondition t cond = false := by
    apply Bool.eq_false_iff.mpr
    intro h
    have := List.all_eq_true.mp h f hf
    rw [hnf] at this
    exact Bool.false_ne_true this
  unfold subscribe
  rw [ht]
  simp [hv]

/-- Witness for C3: subscribing to Stream Online with an empty condition
mapping fails with InvalidCondition and does not touch the fresh state. -/
theorem subscribe_missing_field_invalid_condition_witness :
    subscribe [demoTopic] "Stream Online" "1" [] 7 "abc" (initialState 10) =
      (initialState 10, .error .InvalidCondition) :=
  subscribe_missing_field_invalid_condition [demoTopic] "Stream Online" "1" [] 7 "abc"
    (initialState 10) demoTopic (by decide) ⟨"broadcaster_user_id", by decide, by decide⟩

/-! ## C5 -/

/-- C5: unsubscribe is idempotent: on an id absent from the store it is a
no-op that changes nothing and raises nothing; on a present id it removes
exactly the Subscription with that id after issuing the provider revoke;
repeating an unsubscribe never has a further effect. -/
theorem unsubscribe_idempotent (st : EventSubState) (id : String) :
    ((∀ s ∈ st.subs, s.id ≠ id) → unsubscribe id st = st) ∧
    ((∃ s ∈ st.subs, s.id = id) →
      (unsubscribe id st).subs = st.subs.filter (fun s => s.id != id) ∧
      (unsubscribe id st).providerRequests =
        st.providerRequests ++ [.revokeReq id]) ∧
    unsubscribe id (unsubscribe id st) = unsubscribe id st := by
  refine ⟨?_, ?_, ?_⟩
  · intro h
    unfold unsubscribe
    rw [if_neg]
    simp only [List.any_eq_true, beq_iff_eq, not_exists, not_and]
    intro s hs
    exact fun heq => h s hs heq
  · intro ⟨s, hs, hid⟩
    unfold unsubscribe
    rw [if_pos]
    · exact ⟨rfl, rfl⟩
    · simp only [List.any_eq_true, beq_iff_eq]
      exact ⟨s, hs, hid⟩
  · by_cases h : st.subs.any (fun s => s.id == id) = true
    · have h1 : unsubscribe id st =
          { st with
              subs := st.subs.filter (fun s => s.id != id)
              providerRequests := st.providerRequests ++ [.revokeReq id] } := by
        unfold unsubscribe
        rw [if_pos h]
      rw [h1]
      unfold unsubscribe
      rw [if_neg]
      simp only [List.any_eq_true, beq_iff_eq, not_exists, not_and]
      intro s hs
      have := (List.mem_filter.mp hs).2
      simpa using this
    · have h1 : unsubscribe id st = st := by
        unfold unsubscribe
        rw [if_neg h]
      rw [h1]
      exact h1

/-- Witness for C5: unsubscribing an id never stored in a fresh session
changes nothing. -/
theorem unsubscribe_idempotent_witness :
    unsubscribe "abc" (initialState 10) = initialState 10 :=
  (unsubscribe_idempotent (initialState 10) "abc").1 (by simp [initialState])

/-! ## C4 -/

/-- After unsubscribe, lookup by the unsubscribed id fails. -/
theorem find_after_unsubscribe (st : EventSubState) (id : String) :
    (unsubscribe id st).subs.find? (fun s => s.id == id) = none := by
  unfold unsubscribe
  by_cases h : st.subs.any (fun s => s.id == id) = true
  · rw [if_pos h]
    rw [List.find?_eq_none]
    intro s hs
    have := (List.mem_filter.mp hs).2
    simpa using this
  · rw [if_neg h]
    rw [List.find?_eq_none]
    intro s hs
    simp only [List.any_eq_true, not_exists, not_and] at h
    exact fun heq => h s hs heq

/-- C4: once unsubscribe(id) has completed, dispatching any notification that
carries subscription id id never touches the invocation log (the formerly
registered callback is not invoked), and when the notification is not a
dedup-window duplicate it is dropped with a diagnostic report; dispatch stays
total, raising nothing to the transport. -/
theorem dispatch_after_unsubscribe_drops (st : EventSubState) (id : String)
    (n : Notification) (hn : n.subscriptionId = id) :
    (dispatch n (unsubscribe id st)).invocations = (unsubscribe id st).invocations ∧
    (n.messageId ∉ (unsubscribe id st).dedupWindow →
      (dispatch n (unsubscribe id st)).diagnostics =
        (unsubscribe id st).diagnostics ++ [n.subscriptionId]) := by
  subst hn
  have hfind := find_after_unsubscribe st n.subscriptionId
  by_cases hm : n.messageId ∈ (unsubscribe n.subscriptionId st).dedupWindow
  · rw [dispatch_mem_window n _ hm]
    exact ⟨rfl, fun h => absurd hm h⟩
  · rw [dispatch_fresh_not_found n _ hm hfind]
    exact ⟨rfl, fun _ => rfl⟩

/-- Witness for C4: after unsubscribing the demo Subscription, delivering the
demo notification invokes nothing and reports a diagnostic. -/
theorem dispatch_after_unsubscribe_drops_witness :
    (dispatch demoNotification (unsubscribe "abc" demoState)).invocations =
      (unsubscribe "abc" demoState).invocations ∧
    (dispatch demoNotification (unsubscribe "abc" demoState)).diagnostics =
      (unsubscribe "abc" demoState).diagnostics ++ [demoNotification.subscriptionId] := by
  have h := dispatch_after_unsubscribe_drops demoState "abc" demoNotification rfl
  exact ⟨h.1, h.2 (by decide)⟩

/-! ## C6 -/

/-- C6: the per-Subscription status state machine is exactly
pending to enabled to revoked, or pending to failed: revoked and failed are
terminal, enabled is entered only from pending, failed is entered only from
pending and only on verification timeout or provider rejection, and every
defined transition is one of the three arrows of the diagram. -/
theorem subscription_status_state_machine :
    (∀ e, statusStep .revoked e = none) ∧
    (∀ e, statusStep .failed e = none) ∧
    (∀ s e, statusStep s e = some .enabled → s = .pending) ∧
    (∀ s e, statusStep s e = some .failed →
      s = .pending ∧ (e = .verificationTimeout ∨ e = .providerRejection)) ∧
    (∀ s e s2, statusStep s e = some s2 →
      (s = .pending ∧ s2 = .enabled) ∨ (s = .pending ∧ s2 = .failed) ∨
      (s = .enabled ∧ s2 = .revoked)) := by
  refine ⟨?_, ?_, ?_, ?_, ?_⟩ <;> decide

/-- Witness for C6: the verification-timeout transition out of pending is a
transition into failed. -/
theorem subscription_status_state_machine_witness :
    SubStatus.pending = .pending ∧
    (StatusEvent.verificationTimeout = .verificationTimeout ∨
      StatusEvent.verificationTimeout = .providerRejection) :=
  subscription_status_state_machine.2.2.2.1 .pending .verificationTimeout rfl

/-! ## C2 -/

/-- Modelled from the spec: the Dispatcher serializes delivery per
subscription id (one queue or lock per subscription) but may process
different subscriptions concurrently.  `DispatchOrder delivered invoked`
holds when `invoked` is a callback-invocation order the Dispatcher may
produce for the provider-delivery sequence `delivered`: at every step some
still-pending notification is invoked, provided no earlier pending
notification carries the same subscription id. -/
inductive DispatchOrder : List Notification → List Notification → Prop where
  | nil : DispatchOrder [] []
  | cons (l1 l2 rest : List Notification) (n : Notification)
      (hfirst : ∀ m ∈ l1, m.subscriptionId ≠ n.subscriptionId)
      (htail : DispatchOrder (l1 ++ l2) rest) :
      DispatchOrder (l1 ++ n :: l2) (n :: rest)

/-- In any complete dispatcher run, the invocations for each subscription id
are exactly the deliveries for that id, in the same order. -/
theorem dispatchOrder_filter {delivered invoked : List Notification}
    (h : DispatchOrder delivered invoked) (sid : String) :
    invoked.filter (fun n => n.subscriptionId == sid) =
      delivered.filter (fun n => n.subscriptionId == sid) := by
  induction h with
  | nil => rfl
  | cons l1 l2 rest n hfirst htail ih =>
    by_cases hsid : n.subscriptionId = sid
    · have hl1 : l1.filter (fun m => m.subscriptionId == sid) = [] := by
        rw [List.filter_eq_nil_iff]
        intro m hm
        simp only [beq_iff_eq]
        rw [← hsid]
        exact hfirst m hm
      simp [List.filter_append, List.filter_cons, hsid, hl1, ih]
    · simp [List.filter_append, List.filter_cons, hsid, ih]

/-- A first concrete notification for demonstration runs. -/
def notifA : Notification :=
  { subscriptionId := "s1", messageId := "m1", payload := "p1" }

/-- A second concrete notification, for a different subscription id. -/
def notifB : Notification :=
  { subscriptionId := "s2", messageId := "m2", payload := "p2" }

/-- The dispatcher may keep the delivery order of two notifications for
different subscription ids. -/
theorem dispatchOrder_keep_demo : DispatchOrder [notifA, notifB] [notifA, notifB] :=
  DispatchOrder.cons [] [notifB] [notifB] notifA
    (fun m hm => absurd hm (List.not_mem_nil m))
    (DispatchOrder.cons [] [] [] notifB
      (fun m hm => absurd hm (List.not_mem_nil m)) DispatchOrder.nil)

/-- The dispatcher may also swap two notifications for different
subscription ids. -/
theorem dispatchOrder_swap_demo : DispatchOrder [notifA, notifB] [notifB, notifA] :=
  DispatchOrder.cons [notifA] [] [notifA] notifB (by decide)
    (DispatchOrder.cons [] [] [] notifA
      (fun m hm => absurd hm (List.not_mem_nil m)) DispatchOrder.nil)

/-- C2: in every complete run of the per-subscription-serialized Dispatcher,
the callback invocations carrying any one subscription id appear exactly in
provider-delivery order (the per-id projections of the invocation order and
of the delivery order coincide), while for two notifications of different
subscription ids both relative invocation orders are realizable runs. -/
theorem dispatch_ordering_per_subscription :
    (∀ delivered invoked, DispatchOrder delivered invoked →
      ∀ sid, invoked.filter (fun n => n.subscriptionId == sid) =
        delivered.filter (fun n => n.subscriptionId == sid)) ∧
    (∃ a b : Notification, a.subscriptionId ≠ b.subscriptionId ∧
      DispatchOrder [a, b] [a, b] ∧ DispatchOrder [a, b] [b, a]) :=
  ⟨fun _ _ h sid => dispatchOrder_filter h sid,
   ⟨notifA, notifB, by decide, dispatchOrder_keep_demo, dispatchOrder_swap_demo⟩⟩

/-- Witness for C2: even in the swapped run of the two demo notifications,
the projection to subscription id s1 matches the delivery order. -/
theorem dispatch_ordering_per_subscription_witness :
    [notifB, notifA].filter (fun n => n.subscriptionId == "s1") =
      [notifA, notifB].filter (fun n => n.subscriptionId == "s1") :=
  dispatch_ordering_per_subscription.1 [notifA, notifB] [notifB, notifA]
    dispatchOrder_swap_demo "s1"

/-! ## C7 -/

/-- The pairwise store invariant: any two distinct entries of the
subscription store have distinct ids and are never both active for the same
(topic, condition) pair. -/
def StoreInv (l : List Subscription) : Prop :=
  l.Pairwise (fun s1 s2 => s1.id ≠ s2.id ∧
    ¬(isActive s1 = true ∧ isActive s2 = true ∧
      s1.topic = s2.topic ∧ s1.condition = s2.condition))

/-- Modelled from the spec: the states a session can reach from a fresh core
by any sequence of subscribe, unsubscribe, dispatch and session-reconnect
operations. -/
inductive Reachable (registry : List Topic) (bound : Nat) : EventSubState → Prop where
  | init : Reachable registry bound (initialState bound)
  | subscribeStep (st : EventSubState) (nm ver : String)
      (cond : List (String × String)) (cb : Nat) (newId : String) :
      Reachable registry bound st →
      Reachable registry bound (subscribe registry nm ver cond cb newId st).1
  | unsubscribeStep (st : EventSubState) (id : String) :
      Reachable registry bound st → Reachable registry bound (unsubscribe id st)
  | dispatchStep (st : EventSubState) (n : Notification) :
      Reachable registry bound st → Reachable registry bound (dispatch n st)
  | reconnectStep (st : EventSubState) :
      Reachable registry bound st → Reachable registry bound (onSessionReconnect st)

/-- Dispatch never modifies the subscription store. -/
theorem dispatch_subs (n : Notification) (st : EventSubState) :
    (dispatch n st).subs = st.subs := by
  unfold dispatch
  split
  · rfl
  · split <;> rfl

/-- Subscribe preserves the store invariant: the only store change inserts a
fresh pending Subscription keyed by a provider id, guarded by the
active-duplicate check. -/
theorem storeInv_subscribe (registry : List Topic) (nm ver : String)
    (cond : List (String × String)) (cb : Nat) (newId : String)
    (st : EventSubState) (h : StoreInv st.subs) :
    StoreInv (subscribe registry nm ver cond cb newId st).1.subs := by
  unfold subscribe
  split
  · exact h
  · rename_i t hft
    split
    · split
      · exact h
      · rename_i hfd
        have hnone := List.find?_eq_none.mp hfd
        show StoreInv (st.subs.filter (fun s => s.id != newId) ++
          [{ id := newId, topic := t, condition := cond
             status := .pending, callback := cb }])
        unfold StoreInv
        rw [List.pairwise_append]
        refine ⟨List.Pairwise.filter _ h, List.pairwise_singleton _ _, ?_⟩
        intro a ha b hb
        rw [List.mem_singleton] at hb
        subst hb
        have hmem := List.mem_filter.mp ha
        constructor
        · intro hid
          have := hmem.2
          rw [hid] at this
          simp at this
        · intro hcon
          apply hnone a hmem.1
          simp only [Bool.and_eq_true, beq_iff_eq]
          exact ⟨⟨hcon.1, hcon.2.2.1⟩, hcon.2.2.2⟩
    · exact h

/-- Unsubscribe preserves the store invariant. -/
theorem storeInv_unsubscribe (id : String) (st : EventSubState)
    (h : StoreInv st.subs) : StoreInv (unsubscribe id st).subs := by
  unfold unsubscribe
  split
  · exact List.Pairwise.filter _ h
  · exact h

/-- Session reconnect preserves the store invariant: ids are untouched and
every Subscription comes out revoked, hence inactive. -/
theorem storeInv_reconnect (st : EventSubState) (h : StoreInv st.subs) :
    StoreInv (onSessionReconnect st).subs := by
  unfold onSessionReconnect StoreInv
  rw [List.pairwise_map]
  refine List.Pairwise.imp ?_ h
  intro a b hab
  refine ⟨hab.1, ?_⟩
  intro hcon
  have : isActive { a with status := SubStatus.revoked } = false := by
    simp [isActive]
  rw [this] at hcon
  exact Bool.false_ne_true hcon.1

/-- The bounded-count consequence of a pairwise invariant: a filter whose
satisfying elements exclude one another keeps at most one element. -/
theorem length_filter_le_one_of_pairwise {α : Type} (p : α → Bool)
    (R : α → α → Prop) (hR : ∀ a b, R a b → p a = true → p b = true → False) :
    ∀ (l : List α), l.Pairwise R → (l.filter p).length ≤ 1 := by
  intro l hl
  induction hl with
  | nil => simp
  | cons hhead htail ih =>
    rename_i a l'
    rw [List.filter_cons]
    by_cases hp : p a = true
    · rw [if_pos hp]
      have hnil : l'.filter p = [] := by
        rw [List.filter_eq_nil_iff]
        intro b hb hpb
        exact hR a b (hhead b hb) hp hpb
      rw [hnil]
      simp
    · rw [if_neg hp]
      exact ih

/-- C7: in every state reachable by any sequence of subscribe, unsubscribe,
dispatch and reconnect operations, the subscription ids of the store are
pairwise distinct (each id identifies exactly one live Subscription) and for
every (topic, condition) pair at most one stored Subscription is active. -/
theorem reachable_subscription_invariants (registry : List Topic) (bound : Nat)
    (st : EventSubState) (h : Reachable registry bound st) :
    (st.subs.map (fun s => s.id)).Nodup ∧
    ∀ t c, (st.subs.filter
      (fun s => isActive s && s.topic == t && s.condition == c)).length ≤ 1 := by
  have hinv : StoreInv st.subs := by
    induction h with
    | init => exact List.Pairwise.nil
    | subscribeStep st nm ver cond cb newId _ ih =>
      exact storeInv_subscribe registry nm ver cond cb newId st ih
    | unsubscribeStep st id _ ih => exact storeInv_unsubscribe id st ih
    | dispatchStep st n _ ih =>
      rw [dispatch_subs]
      exact ih
    | reconnectStep st _ ih => exact storeInv_reconnect st ih
  constructor
  · exact List.pairwise_map.mpr (hinv.imp fun hab => hab.1)
  · intro t c
    apply length_filter_le_one_of_pairwise _ _ ?_ _ hinv
    intro a b hab hpa hpb
    simp only [Bool.and_eq_true, beq_iff_eq] at hpa hpb
    exact hab.2 ⟨hpa.1.1, hpb.1.1, hpa.1.2.trans hpb.1.2.symm,
      hpa.2.trans hpb.2.symm⟩

/-- Witness for C7: after one successful subscribe from a fresh session, the
stored ids are distinct and the demo (topic, condition) pair has at most one
active Subscription. -/
theorem reachable_subscription_invariants_witness :
    (((subscribe [demoTopic] "Stream Online" "1" [("broadcaster_user_id", "123")]
        7 "abc" (initialState 10)).1.subs.map (fun s => s.id)).Nodup ∧
    ((subscribe [demoTopic] "Stream Online" "1" [("broadcaster_user_id", "123")]
        7 "abc" (initialState 10)).1.subs.filter
      (fun s => isActive s && s.topic == demoTopic &&
        s.condition == [("broadcaster_user_id", "123")])).length ≤ 1) := by
  have h := reachable_subscription_invariants [demoTopic] 10 _
    (Reachable.subscribeStep (initialState 10) "Stream Online" "1"
      [("broadcaster_user_id", "123")] 7 "abc" Reachable.init)
  exact ⟨h.1, h.2 demoTopic [("broadcaster_user_id", "123")]⟩

/-! ## C8 -/

/-- C8: every topic of the supported-topics catalog has exactly one
registration operation, named by the convention listen_<topic> with an
optional _v<version> suffix (the slug of the displayed topic name), the
function names never collide, the (topic name, displayed version) keys never
collide, and the registration entry point returns a Subscription handle or
fails with exactly InvalidCondition or UnknownTopic. -/
theorem listen_registration_surface :
    (∀ e ∈ eventsubCatalog, followsConvention e = true) ∧
    (eventsubCatalog.map (fun e => e.listenFunction)).Nodup ∧
    (eventsubCatalog.map (fun e => (e.topicName, e.docVersion))).Nodup ∧
    (∀ registry nm ver cond cb newId st,
      (∃ s, (subscribe registry nm ver cond cb newId st).2 = .ok s) ∨
      (subscribe registry nm ver cond cb newId st).2 = .error .InvalidCondition ∨
      (subscribe registry nm ver cond cb newId st).2 = .error .UnknownTopic) := by
  refine ⟨by decide, by decide, by decide, ?_⟩
  intro registry nm ver cond cb newId st
  unfold subscribe
  split
  · right; right; rfl
  · split
    · split
      · rename_i s _
        exact Or.inl ⟨s, rfl⟩
      · exact Or.inl ⟨_, rfl⟩
    · right; left; rfl

/-- Witness for C8 at the claim's own example: Channel Update v2 is
registered through listen_channel_update_v2, which the convention admits. -/
theorem listen_registration_surface_witness :
    followsConvention
      (entry "Channel Update" (some "2") "listen_channel_update_v2"
        "ChannelUpdateEvent") = true :=
  listen_registration_surface.1 _ (by decide)

/-! ## C9 -/

/-- C9: the static topic-to-payload map of the catalog is not injective:
Channel Update v1 and v2 both advertise ChannelUpdateEvent, Channel
Prediction Begin, Progress and Lock all advertise ChannelPredictionEvent,
Channel Shield Mode Begin and End both advertise ShieldModeEvent, and hence
a payload type does not determine the topic that fired. -/
theorem topic_payload_map_not_injective :
    payloadOfTopic "Channel Update" (some "1") = some "ChannelUpdateEvent" ∧
    payloadOfTopic "Channel Update" (some "2") = some "ChannelUpdateEvent" ∧
    payloadOfTopic "Channel Prediction Begin" none = some "ChannelPredictionEvent" ∧
    payloadOfTopic "Channel Prediction Progress" none = some "ChannelPredictionEvent" ∧
    payloadOfTopic "Channel Prediction Lock" none = some "ChannelPredictionEvent" ∧
    payloadOfTopic "Channel Shield Mode Begin" none = some "ShieldModeEvent" ∧
    payloadOfTopic "Channel Shield Mode End" none = some "ShieldModeEvent" ∧
    ¬(∀ e1 ∈ eventsubCatalog, ∀ e2 ∈ eventsubCatalog,
      e1.payload = e2.payload → e1.topicName = e2.topicName ∧
        e1.docVersion = e2.docVersion) := by
  refine ⟨rfl, rfl, rfl, rfl, rfl, rfl, rfl, ?_⟩
  decide

/-! ## C10 -/

/-- C10: the module provides exactly two transports — webhook for
server/multi-user use under App Authentication and websocket for
client/single-user use under User Authentication — and every listen_
registration function of the catalog is defined on the shared base class
twitchAPI.eventsub.base.EventSubBase, so both transports expose the same
topic-registration surface. -/
theorem two_transports_shared_base :
    availableTransports.length = 2 ∧
    (∃ t ∈ availableTransports, t.methodDoc = "twitchAPI.eventsub.webhook" ∧
      t.useCase = "Server / Multi User" ∧ t.authType = "App Authentication") ∧
    (∃ t ∈ availableTransports, t.methodDoc = "twitchAPI.eventsub.websocket" ∧
      t.useCase = "Client / Single User" ∧ t.authType = "User Authentication") ∧
    (∀ e ∈ eventsubCatalog, e.definedOn = "twitchAPI.eventsub.base.EventSubBase") := by
  refine ⟨rfl, ?_, ?_, by decide⟩
  · exact ⟨_, List.mem_cons_self _ _, rfl, rfl, rfl⟩
  · exact ⟨_, List.mem_cons_of_mem _ (List.mem_cons_self _ _), rfl, rfl, rfl⟩

/-- Witness for C10: the Stream Online registration function lives on the
shared EventSubBase class. -/
theorem two_transports_shared_base_witness :
    (entry "Stream Online" none "listen_stream_online"
      "StreamOnlineEvent").definedOn = "twitchAPI.eventsub.base.EventSubBase" :=
  two_transports_shared_base.2.2.2 _ (by decide)

end EventSub
